import Mathlib

/-!
Verification of the rollkit block manager against its specification.

The Go sources embedded here:
* `types` package (`Header`, `Header.Verify`, `Header.Validate`,
  `Header.ValidateBasic`) — translated from the header type file.
* `block` package (`Manager.SyncLoop`, `Manager.AggregationLoop`,
  `Manager.publishBlock`, `Manager.mustRetrieveBlock`, `Manager.fetchBlock`)
  — translated from `block/manager.go`.

External collaborators (Store, Executor, DA client) are not part of the
sources; where a claim needs them they are modelled from the spec and
marked as such, or passed as explicit function parameters of the
embedded manager operations.
-/

namespace Rollkit

/-- 32-byte hash values are modelled as lists of byte values. -/
abbrev Hash := List Nat

/-- The all-zero 32-byte hash, Go's `[32]byte{}`. -/
def zeroHash32 : Hash := List.replicate 32 0

/-- `2^64`: header heights are Go `uint64` values; arithmetic on them is
reduced modulo this constant where overflow could matter. -/
def U64 : Nat := 2 ^ 64

/-- Block and App version pair (Go `Version`). -/
structure Version where
  block : Nat
  app : Nat
deriving DecidableEq

/-- Rollkit block header (Go `types.Header`, with the embedded
`BaseHeader` flattened into the `height`, `time`, `chainID` fields). -/
structure Header where
  height : Nat
  time : Nat
  chainID : String
  version : Version
  lastHeaderHash : Hash
  lastCommitHash : Hash
  dataHash : Hash
  consensusHash : Hash
  appHash : Hash
  lastResultsHash : Hash
  proposerAddress : List Nat
  aggregatorsHash : Hash
  nextAggregatorsHash : Hash
deriving DecidableEq

/-- Verification error returned by `Header.Verify`
(Go `header.VerifyError` with its reason). -/
inductive VerifyError where
  | aggregatorsMismatch (expected actual : Hash)
deriving DecidableEq

/-- Go `Header.Verify(untrstH)`: when the untrusted header's height is the
trusted height plus one (uint64 arithmetic), the aggregator hashes must
link; otherwise no check is performed. `none` is Go's `nil` (success). -/
def Header.Verify (h untrstH : Header) : Option VerifyError :=
  if untrstH.height % U64 = (h.height + 1) % U64 then
    if ¬ (untrstH.aggregatorsHash = h.nextAggregatorsHash) then
      some (.aggregatorsMismatch h.nextAggregatorsHash untrstH.aggregatorsHash)
    else
      none
  else
    none

/-- Error returned by header validation (Go `ErrNoProposerAddress`). -/
inductive HeaderError where
  | ErrNoProposerAddress
deriving DecidableEq

/-- Go `Header.ValidateBasic`: fails only when `ProposerAddress` is empty. -/
def Header.ValidateBasic (h : Header) : Option HeaderError :=
  if h.proposerAddress.length = 0 then
    some .ErrNoProposerAddress
  else
    none

/-- Go `Header.Validate`: delegates to `ValidateBasic`. -/
def Header.Validate (h : Header) : Option HeaderError :=
  h.ValidateBasic

/-- A signature, an opaque byte string. -/
abbrev Signature := List Nat

/-- Go `types.Commit`: evidence that a block was produced. -/
structure Commit where
  height : Nat
  headerHash : Hash
  signatures : List Signature
deriving DecidableEq

/-- Go `types.Block` as used by `block/manager.go`: a header, the
transaction payload, and the previous block's commit (`LastCommit`). -/
structure Block where
  header : Header
  txs : List (List Nat)
  lastCommit : Commit
deriving DecidableEq

/-- Modelled from the spec: the Store contract — a persistent map of
blocks and commits by height, a singleton state record, and `Height()`,
the largest height for which a block has been saved. The Store
implementation is not part of the sources; `σ` is the application state
type. -/
structure Store (σ : Type) where
  blocks : Nat → Option Block
  commits : Nat → Option Commit
  stateRec : Option σ
  height : Nat

/-- Modelled from the spec: `Store.SaveBlock(block, commit)` persists both
under `block.header.height`; after success `Height() ≥ h`. -/
def Store.SaveBlock (s : Store σ) (b : Block) (c : Commit) : Store σ :=
  { s with
    blocks := fun h => if h = b.header.height then some b else s.blocks h,
    commits := fun h => if h = b.header.height then some c else s.commits h,
    height := max s.height b.header.height }

/-- Modelled from the spec: `Store.UpdateState` overwrites the singleton
state record. -/
def Store.UpdateState (s : Store σ) (st : σ) : Store σ :=
  { s with stateRec := some st }

/-! ## Sync loop (`Manager.SyncLoop`, block/manager.go)

The executor's `ApplyBlock` is an external collaborator and is passed as
a function `σ → Block → Option σ` (`none` is the error case, which the
loop logs and skips with `continue`). -/

/-- The state the Sync loop owns: the staging cache (`m.syncCache`), the
store, and `m.lastState`. -/
structure SyncState (σ : Type) where
  syncCache : Nat → Option Block
  store : Store σ
  lastState : σ

/-- `m.syncCache[block.Header.Height] = block`. -/
def insertCache (cache : Nat → Option Block) (b : Block) : Nat → Option Block :=
  fun h => if h = b.header.height then some b else cache h

/-- The body of `Manager.SyncLoop`'s block-in branch: insert the inbound
block into the staging cache; then, if the cache holds blocks at both
`Store.Height()+1` and `Store.Height()+2`, apply the first, save it with
the second one's `LastCommit`, persist the new state and delete the
saved height from the cache. The branch body runs once per inbound
block (an `if`, not a loop, in the source). -/
def syncBlockStep (applyBlock : σ → Block → Option σ)
    (m : SyncState σ) (b : Block) : SyncState σ :=
  let cache := insertCache m.syncCache b
  let currentHeight := m.store.height
  match cache (currentHeight + 1), cache (currentHeight + 2) with
  | some b1, some b2 =>
    match applyBlock m.lastState b1 with
    | none => { m with syncCache := cache }
    | some newState =>
      let store := (m.store.SaveBlock b1 b2.lastCommit).UpdateState newState
      { syncCache := fun h => if h = currentHeight + 1 then none else cache h,
        store := store,
        lastState := newState }
  | _, _ => { m with syncCache := cache }

/-- The part of the Sync loop's header-in branch that the manager state
observes: the store height read and the `syncTarget` register. -/
structure HeaderSyncState where
  storeHeight : Nat
  syncTarget : Nat
deriving DecidableEq

/-- The body of `Manager.SyncLoop`'s header-in branch: when the inbound
header's height exceeds `Store.Height()`, `syncTarget` is overwritten
with that height (`atomic.StoreUint64(&m.syncTarget, newHeight)`). -/
def syncHeaderStep (m : HeaderSyncState) (newHeight : Nat) : HeaderSyncState :=
  if newHeight > m.storeHeight then
    { m with syncTarget := newHeight }
  else
    m

/-! ## Retrieve loop (`Manager.mustRetrieveBlock` / `Manager.fetchBlock`)

The DA retriever is an external collaborator; it is passed as an oracle
mapping the attempt index to the `RetrieveBlock` result of that call. -/

/-- DA result codes (Go `da.StatusSuccess`, `da.StatusError`,
`da.StatusTimeout`). -/
inductive StatusCode where
  | Success
  | Error
  | Timeout
deriving DecidableEq

/-- Result of `DA.RetrieveBlock` as `Manager.fetchBlock` consumes it. -/
structure RetrieveResult where
  code : StatusCode
  message : String
deriving DecidableEq

/-- Go `Manager.fetchBlock`: on `StatusSuccess` the block is forwarded to
the Sync inbound channel and `err` stays `nil` (modelled as `none`); on
`StatusError` / `StatusTimeout` an error is returned. -/
def fetchBlock (res : RetrieveResult) : Option String :=
  match res.code with
  | .Success => none
  | .Error => some ("failed to retrieve block: " ++ res.message)
  | .Timeout => some ("timeout during retrieve block: " ++ res.message)

/-- The retry loop of `Manager.mustRetrieveBlock`
(`for r := 0; r < maxRetries; r++`), instrumented with the number of
`fetchBlock` calls made so far. Returns the total number of calls and
whether the loop ended in success (`true`) or fell through to the
`panic` (`false`). -/
def mustRetrieveAux (oracle : Nat → RetrieveResult) :
    Nat → Nat → Nat × Bool
  | attempt, 0 => (attempt, false)
  | attempt, remaining + 1 =>
    match fetchBlock (oracle attempt) with
    | none => (attempt + 1, true)
    | some _ => mustRetrieveAux oracle (attempt + 1) remaining

/-- Go `Manager.mustRetrieveBlock`: retries `fetchBlock` up to the
hard-coded `maxRetries := 10`, returning on the first success and
panicking once all retries are exhausted. Result: number of `fetchBlock`
calls and whether it succeeded. -/
def mustRetrieveBlock (oracle : Nat → RetrieveResult) : Nat × Bool :=
  mustRetrieveAux oracle 0 10

/-- Modelled from the spec: the same retry loop but bounded by the
configured `max_retrieve_retries` value, as the spec describes it; the
sources hard-code the bound instead. Used to compare the source
behaviour against the spec's. -/
def mustRetrieveBlockConfigured (maxRetries : Nat)
    (oracle : Nat → RetrieveResult) : Nat × Bool :=
  mustRetrieveAux oracle 0 maxRetries

/-! ## Aggregation (`Manager.publishBlock` / `Manager.AggregationLoop`)

`CreateBlock`, `ApplyBlock`, the signer, the header hash and
`DA.SubmitBlock` are external collaborators passed in as an environment
record. -/

/-- Errors `publishBlock` can return (store save and state-update
failures are not modelled: the store operations are total here). -/
inductive PublishError where
  | loadCommitFailed
  | applyBlockFailed
  | submitFailed
deriving DecidableEq

/-- The manager state the aggregation path owns. -/
structure MgrState (σ : Type) where
  store : Store σ
  lastState : σ

/-- External collaborators of `publishBlock`. -/
structure PublishEnv (σ : Type) where
  initialHeight : Nat
  createBlock : Nat → Commit → σ → Block
  applyBlock : σ → Block → Option σ
  signHeader : Header → Signature
  headerHash : Header → Hash
  submitBlock : Block → StatusCode

/-- The `lastCommit` computation at the top of `Manager.publishBlock`:
when `newHeight == genesis.InitialHeight` a zero commit
`{Height: Store.Height(), HeaderHash: [32]byte{}}` (no signatures) is
synthesized; otherwise `Store.LoadCommit(Store.Height())`, which fails
(`none`) when no commit is stored at that height. -/
def lastCommitOf (env : PublishEnv σ) (m : MgrState σ) : Option Commit :=
  if m.store.height + 1 = env.initialHeight then
    some { height := m.store.height, headerHash := zeroHash32, signatures := [] }
  else
    m.store.commits m.store.height

/-- Go `Manager.publishBlock`: load (or synthesize) the last commit,
create the block, apply it, sign the header, save block and commit,
persist the new state, then `broadcastBlock` submits to the DA layer;
a non-Success submission returns an error after the block is already
saved. -/
def publishBlock (env : PublishEnv σ) (m : MgrState σ) :
    MgrState σ × Option PublishError :=
  let newHeight := m.store.height + 1
  match lastCommitOf env m with
  | none => (m, some .loadCommitFailed)
  | some lastCommit =>
    let block := env.createBlock newHeight lastCommit m.lastState
    match env.applyBlock m.lastState block with
    | none => (m, some .applyBlockFailed)
    | some newState =>
      let commit : Commit :=
        { height := block.header.height,
          headerHash := env.headerHash block.header,
          signatures := [env.signHeader block.header] }
      let store := (m.store.SaveBlock block commit).UpdateState newState
      let m1 : MgrState σ := { store := store, lastState := newState }
      (m1, if env.submitBlock block = .Success then none else some .submitFailed)

/-- Go `Manager.AggregationLoop` run for a given number of timer ticks:
each tick calls `publishBlock`; an error is only logged
(`m.logger.Error`) and the loop continues with the next tick. Returns
the final manager state and the per-tick outcome log (one entry per
`publishBlock` invocation). -/
def aggregationLoop (env : PublishEnv σ) (m : MgrState σ) :
    Nat → MgrState σ × List (Option PublishError)
  | 0 => (m, [])
  | n + 1 =>
    let r := publishBlock env m
    let rest := aggregationLoop env r.1 n
    (rest.1, r.2 :: rest.2)

/-- Modelled from the spec: `Executor.CreateBlock(height, lastCommit,
state)` — the executor is not part of the sources. It constructs a block
at the given height that carries the given commit as its `LastCommit`
(the next block carries the previous block's commit). -/
def createBlockModel (height : Nat) (lastCommit : Commit) (_st : σ) : Block :=
  { header :=
      { height := height, time := 0, chainID := "test", version := ⟨0, 0⟩,
        lastHeaderHash := zeroHash32, lastCommitHash := zeroHash32,
        dataHash := zeroHash32, consensusHash := zeroHash32,
        appHash := zeroHash32, lastResultsHash := zeroHash32,
        proposerAddress := [1], aggregatorsHash := zeroHash32,
        nextAggregatorsHash := zeroHash32 },
    txs := [],
    lastCommit := lastCommit }

/-! ## Concrete fixtures for witnesses and counterexamples -/

/-- A concrete header at a given height. -/
def testHeader (n : Nat) : Header :=
  { height := n, time := 0, chainID := "test", version := ⟨0, 0⟩,
    lastHeaderHash := zeroHash32, lastCommitHash := zeroHash32,
    dataHash := zeroHash32, consensusHash := zeroHash32,
    appHash := zeroHash32, lastResultsHash := zeroHash32,
    proposerAddress := [1], aggregatorsHash := zeroHash32,
    nextAggregatorsHash := zeroHash32 }

/-- A concrete commit for a given height. -/
def testCommit (n : Nat) : Commit :=
  { height := n, headerHash := zeroHash32, signatures := [] }

/-- A concrete block at a given height. -/
def testBlock (n : Nat) : Block :=
  { header := testHeader n, txs := [], lastCommit := testCommit (n - 1) }

/-- A header whose aggregators hash differs from `zeroHash32`, at
height 5. -/
def mismatchHeader : Header :=
  { testHeader 5 with aggregatorsHash := List.replicate 32 1 }

/-- A trivial executor for concrete runs: applying any block advances a
counter state and always succeeds. -/
def applyInc : Nat → Block → Option Nat := fun s _ => some (s + 1)

/-- An empty store at height 0. -/
def emptyStore : Store Nat :=
  { blocks := fun _ => none, commits := fun _ => none,
    stateRec := none, height := 0 }

/-- A staging cache already holding blocks at heights 2 and 3. -/
def stagedCache : Nat → Option Block := fun h =>
  if h = 2 then some (testBlock 2)
  else if h = 3 then some (testBlock 3)
  else none

/-- A follower whose cache already stages heights 2 and 3 over an empty
store. -/
def stagedSync : SyncState Nat :=
  { syncCache := stagedCache, store := emptyStore, lastState := 0 }

/-- A follower with an empty staging cache over an empty store. -/
def emptySync : SyncState Nat :=
  { syncCache := fun _ => none, store := emptyStore, lastState := 0 }

/-- The guard of the Sync block-in branch is inert for a state and an
inbound block when, after the insertion, the cache lacks a block at
`Store.Height()+1` or at `Store.Height()+2`, or `ApplyBlock` fails on
the first of them. -/
def syncGuardInert (applyBlock : σ → Block → Option σ)
    (m : SyncState σ) (b : Block) : Bool :=
  match insertCache m.syncCache b (m.store.height + 1),
        insertCache m.syncCache b (m.store.height + 2) with
  | some b1, some _ => (applyBlock m.lastState b1).isNone
  | _, _ => true

/-- A concrete aggregation environment: genesis at height 1, the modelled
executor, a trivial signer and hasher, and a DA layer that accepts every
submission. -/
def testEnv : PublishEnv Nat :=
  { initialHeight := 1,
    createBlock := createBlockModel,
    applyBlock := applyInc,
    signHeader := fun _ => [0],
    headerHash := fun _ => zeroHash32,
    submitBlock := fun _ => .Success }

/-- The same environment with a DA layer that rejects every submission. -/
def failSubmitEnv : PublishEnv Nat :=
  { initialHeight := 1,
    createBlock := createBlockModel,
    applyBlock := applyInc,
    signHeader := fun _ => [0],
    headerHash := fun _ => zeroHash32,
    submitBlock := fun _ => .Error }

/-- A proposer state whose store is at height 1 but holds no commit at
height 1, so `LoadCommit(Store.Height())` fails NotFound on a
non-genesis tick. -/
def orphanState : MgrState Nat :=
  { store := { blocks := fun _ => none, commits := fun _ => none,
               stateRec := none, height := 1 },
    lastState := 0 }

/-- A fresh proposer at an empty store: the next tick is the genesis
height. -/
def genesisMgr : MgrState Nat :=
  { store := emptyStore, lastState := 0 }

/-- A DA retrieval oracle that times out on the first three attempts and
succeeds on the fourth. -/
def timeout3Oracle : Nat → RetrieveResult := fun i =>
  if i < 3 then { code := .Timeout, message := "" }
  else { code := .Success, message := "" }

/-- A DA retrieval oracle that times out on the first five attempts and
succeeds afterwards. -/
def timeout5Oracle : Nat → RetrieveResult := fun i =>
  if i < 5 then { code := .Timeout, message := "" }
  else { code := .Success, message := "" }

/-! ## Claims about header verification and validation -/

/-- C7: for a trusted header `h` and an untrusted header `u` at height
`h.height + 1` (uint64 arithmetic), `Header.Verify` succeeds exactly
when `u.aggregatorsHash` equals `h.nextAggregatorsHash`; a mismatch
yields an error. -/
theorem verify_adjacent_iff (h u : Header)
    (hadj : u.height % U64 = (h.height + 1) % U64) :
    Header.Verify h u = none ↔ u.aggregatorsHash = h.nextAggregatorsHash := by
  unfold Header.Verify
  rw [if_pos hadj]
  by_cases hA : u.aggregatorsHash = h.nextAggregatorsHash
  · simp [hA]
  · simp [hA]

/-- Witness for C7: concrete adjacent headers at heights 1 and 2 with
matching aggregator hashes. -/
theorem verify_adjacent_iff_witness :
    (testHeader 2).height % U64 = ((testHeader 1).height + 1) % U64 ∧
    (Header.Verify (testHeader 1) (testHeader 2) = none ↔
      (testHeader 2).aggregatorsHash = (testHeader 1).nextAggregatorsHash) :=
  ⟨by decide, verify_adjacent_iff (testHeader 1) (testHeader 2) (by decide)⟩

/-- C9: for headers whose heights are not adjacent (the untrusted height
differs from trusted height + 1 in uint64 arithmetic, including equal or
lower heights), `Header.Verify` returns success unconditionally — no
field of the untrusted header is checked. -/
theorem verify_nonadjacent_ok (h u : Header)
    (hna : u.height % U64 ≠ (h.height + 1) % U64) :
    Header.Verify h u = none := by
  unfold Header.Verify
  rw [if_neg hna]

/-- Witness for C9: two headers at the same height 5 whose aggregator
hashes do not match still verify successfully. -/
theorem verify_nonadjacent_ok_witness :
    mismatchHeader.height % U64 ≠ ((testHeader 5).height + 1) % U64 ∧
    Header.Verify (testHeader 5) mismatchHeader = none :=
  ⟨by decide, verify_nonadjacent_ok (testHeader 5) mismatchHeader (by decide)⟩

/-- C10: `Header.Validate` delegates to `Header.ValidateBasic`, which
fails (with `ErrNoProposerAddress`) exactly when the proposer address is
empty; headers agreeing on the proposer address validate identically, so
no other field is checked. -/
theorem validate_iff_proposer_empty (h : Header) :
    Header.Validate h = Header.ValidateBasic h ∧
    (Header.ValidateBasic h = some .ErrNoProposerAddress ↔
      h.proposerAddress.length = 0) ∧
    (h.proposerAddress.length ≠ 0 → Header.ValidateBasic h = none) ∧
    (∀ h2 : Header, h.proposerAddress = h2.proposerAddress →
      Header.ValidateBasic h = Header.ValidateBasic h2) := by
  refine ⟨rfl, ?_, ?_, ?_⟩
  · unfold Header.ValidateBasic
    by_cases hp : h.proposerAddress.length = 0 <;> simp [hp]
  · intro hp
    unfold Header.ValidateBasic
    rw [if_neg hp]
  · intro h2 he
    unfold Header.ValidateBasic
    rw [he]

/-- Witness for C10: the characterization instantiated at a concrete
header with a non-empty proposer address. -/
theorem validate_iff_proposer_empty_witness :
    Header.Validate (testHeader 0) = Header.ValidateBasic (testHeader 0) ∧
    (Header.ValidateBasic (testHeader 0) = some .ErrNoProposerAddress ↔
      (testHeader 0).proposerAddress.length = 0) ∧
    ((testHeader 0).proposerAddress.length ≠ 0 →
      Header.ValidateBasic (testHeader 0) = none) ∧
    (∀ h2 : Header, (testHeader 0).proposerAddress = h2.proposerAddress →
      Header.ValidateBasic (testHeader 0) = Header.ValidateBasic h2) :=
  validate_iff_proposer_empty (testHeader 0)

/-! ## Claims about the Sync loop header-in branch -/

/-- C2 counterexample: with `Store.Height() = 0` and `syncTarget`
already 10, an inbound header of height 5 overwrites `syncTarget` to 5,
not `max 10 5 = 10`: the source stores the new height, it does not take
the maximum, so `syncTarget` decreases on this out-of-order arrival. -/
theorem syncTarget_not_max :
    (syncHeaderStep { storeHeight := 0, syncTarget := 10 } 5).syncTarget = 5 ∧
    (syncHeaderStep { storeHeight := 0, syncTarget := 10 } 5).syncTarget ≠
      max 10 5 := by
  decide

/-- C2 (amended): for every inbound header height exceeding
`Store.Height()`, `syncTarget` is overwritten with that height
(a plain store, so it can decrease when headers arrive out of order). -/
theorem syncTarget_overwritten (m : HeaderSyncState) (newHeight : Nat)
    (hgt : newHeight > m.storeHeight) :
    (syncHeaderStep m newHeight).syncTarget = newHeight := by
  unfold syncHeaderStep
  rw [if_pos hgt]

/-- Witness for the amended C2 at a concrete state. -/
theorem syncTarget_overwritten_witness :
    5 > (HeaderSyncState.mk 0 10).storeHeight ∧
    (syncHeaderStep (HeaderSyncState.mk 0 10) 5).syncTarget = 5 :=
  ⟨by decide, syncTarget_overwritten (HeaderSyncState.mk 0 10) 5 (by decide)⟩

/-! ## Claims about the Sync loop block-in branch -/

/-- C1 counterexample: with heights 2 and 3 already staged and the store
at height 0, an inbound block at height 1 saves only height 1; after the
step the cache still holds blocks at both `Store.Height()+1 = 2` and
`Store.Height()+2 = 3`, so the consecutive pair (2,3) was not drained —
the source runs the branch body at most once per inbound block (an `if`,
not the claimed `while`). -/
theorem syncLoop_single_inbound_no_drain :
    (syncBlockStep applyInc stagedSync (testBlock 1)).store.height = 1 ∧
    ((syncBlockStep applyInc stagedSync (testBlock 1)).syncCache
      ((syncBlockStep applyInc stagedSync (testBlock 1)).store.height + 1)).isSome
      = true ∧
    ((syncBlockStep applyInc stagedSync (testBlock 1)).syncCache
      ((syncBlockStep applyInc stagedSync (testBlock 1)).store.height + 2)).isSome
      = true := by
  decide

/-- C1 (amended): on an inbound block `b` the Sync loop inserts `b` into
the cache under its header height and then, **if** blocks `b1`, `b2` are
present at `Store.Height()+1` and `Store.Height()+2` and `ApplyBlock`
succeeds, applies `b1`, saves it with `b2`'s last commit, persists the
new state and deletes the saved height from the cache — at most one
consecutive pair per inbound block. -/
theorem syncLoop_applies_one_pair {σ : Type} (applyBlock : σ → Block → Option σ)
    (m : SyncState σ) (b b1 b2 : Block) (newState : σ)
    (h1 : insertCache m.syncCache b (m.store.height + 1) = some b1)
    (h2 : insertCache m.syncCache b (m.store.height + 2) = some b2)
    (ha : applyBlock m.lastState b1 = some newState) :
    syncBlockStep applyBlock m b =
      { syncCache := fun h =>
          if h = m.store.height + 1 then none
          else insertCache m.syncCache b h,
        store := (m.store.SaveBlock b1 b2.lastCommit).UpdateState newState,
        lastState := newState } := by
  simp only [syncBlockStep, h1, h2, ha]

/-- Witness for the amended C1 on the staged follower. -/
theorem syncLoop_applies_one_pair_witness :
    insertCache stagedSync.syncCache (testBlock 1) (stagedSync.store.height + 1)
      = some (testBlock 1) ∧
    insertCache stagedSync.syncCache (testBlock 1) (stagedSync.store.height + 2)
      = some (testBlock 2) ∧
    applyInc stagedSync.lastState (testBlock 1) = some 1 ∧
    syncBlockStep applyInc stagedSync (testBlock 1) =
      { syncCache := fun h =>
          if h = stagedSync.store.height + 1 then none
          else insertCache stagedSync.syncCache (testBlock 1) h,
        store := (stagedSync.store.SaveBlock (testBlock 1)
          (testBlock 2).lastCommit).UpdateState 1,
        lastState := 1 } :=
  ⟨by decide, by decide, by decide,
    syncLoop_applies_one_pair applyInc stagedSync (testBlock 1) (testBlock 1)
      (testBlock 2) 1 (by decide) (by decide) (by decide)⟩

/-- C8 counterexample: in the staged configuration, delivering the block
at height 1 once saves nothing at height 2, but delivering the same
block a second time additionally applies and saves the staged block at
height 2 — the store states differ, so follower ingestion is not
idempotent in general. -/
theorem sync_redelivery_not_idempotent :
    (syncBlockStep applyInc stagedSync (testBlock 1)).store.blocks 2 = none ∧
    (syncBlockStep applyInc (syncBlockStep applyInc stagedSync (testBlock 1))
      (testBlock 1)).store.blocks 2 = some (testBlock 2) := by
  decide

/-- When the guard is inert, the block-in branch leaves the store
untouched (only the cache changes). -/
lemma syncBlockStep_store_of_inert {σ : Type} (applyBlock : σ → Block → Option σ)
    (m : SyncState σ) (b : Block)
    (hi : syncGuardInert applyBlock m b = true) :
    (syncBlockStep applyBlock m b).store = m.store := by
  unfold syncGuardInert at hi
  cases hc1 : insertCache m.syncCache b (m.store.height + 1) with
  | none => simp only [syncBlockStep, hc1]
  | some b1 =>
    cases hc2 : insertCache m.syncCache b (m.store.height + 2) with
    | none => simp only [syncBlockStep, hc1, hc2]
    | some b2 =>
      rw [hc1, hc2] at hi
      cases ha : applyBlock m.lastState b1 with
      | none => simp only [syncBlockStep, hc1, hc2, ha]
      | some ns => simp [ha] at hi

/-- C8 (amended): delivering the same block twice leaves the store in
the same state as delivering it once, provided that after the second
insertion the cache does not hold blocks at both `Store.Height()+1` and
`Store.Height()+2` (or `ApplyBlock` fails on the first of them);
otherwise the second delivery applies one additional staged pair. -/
theorem sync_redelivery_idempotent_when_inert {σ : Type}
    (applyBlock : σ → Block → Option σ) (m : SyncState σ) (b : Block)
    (hi : syncGuardInert applyBlock (syncBlockStep applyBlock m b) b = true) :
    (syncBlockStep applyBlock (syncBlockStep applyBlock m b) b).store =
      (syncBlockStep applyBlock m b).store :=
  syncBlockStep_store_of_inert applyBlock (syncBlockStep applyBlock m b) b hi

/-- Witness for the amended C8: a single block delivered twice into an
otherwise empty follower leaves the store unchanged. -/
theorem sync_redelivery_idempotent_when_inert_witness :
    syncGuardInert applyInc (syncBlockStep applyInc emptySync (testBlock 5))
      (testBlock 5) = true ∧
    (syncBlockStep applyInc (syncBlockStep applyInc emptySync (testBlock 5))
      (testBlock 5)).store =
      (syncBlockStep applyInc emptySync (testBlock 5)).store :=
  ⟨by decide,
    sync_redelivery_idempotent_when_inert applyInc emptySync (testBlock 5)
      (by decide)⟩

/-! ## Claims about the aggregation loop error handling -/

/-- C3 counterexample: with the store at height 1 and no commit stored at
height 1 (non-genesis: `newHeight = 2 ≠ initial_height = 1`), the
`LoadCommit` failure makes `publishBlock` return an error on every tick,
yet the aggregation loop keeps ticking: over 3 ticks `publishBlock` is
invoked 3 times (one log entry each) — the manager does not halt, it
proceeds to the next tick. -/
theorem aggregation_not_fatal_on_notFound :
    aggregationLoop testEnv orphanState 3 =
      (orphanState,
        [some .loadCommitFailed, some .loadCommitFailed, some .loadCommitFailed]) :=
  rfl

/-- C3 (amended): when `LoadCommit(Store.Height())` fails NotFound on a
non-genesis tick, `publishBlock` returns an error and saves nothing; the
aggregation loop merely logs the error and continues, so every
subsequent tick repeats the same failure — no further block is produced
while the commit is missing, but the manager does not halt. -/
theorem aggregation_loops_on_notFound {σ : Type} (env : PublishEnv σ)
    (m : MgrState σ)
    (hng : m.store.height + 1 ≠ env.initialHeight)
    (hnc : m.store.commits m.store.height = none) :
    ∀ n, aggregationLoop env m n =
      (m, List.replicate n (some .loadCommitFailed)) := by
  have hp : publishBlock env m = (m, some .loadCommitFailed) := by
    simp only [publishBlock, lastCommitOf, if_neg hng, hnc]
  intro n
  induction n with
  | zero => simp [aggregationLoop]
  | succ k ih => simp [aggregationLoop, hp, ih, List.replicate_succ]

/-- Witness for the amended C3 on the concrete orphaned proposer. -/
theorem aggregation_loops_on_notFound_witness :
    orphanState.store.height + 1 ≠ testEnv.initialHeight ∧
    orphanState.store.commits orphanState.store.height = none ∧
    aggregationLoop testEnv orphanState 2 =
      (orphanState, List.replicate 2 (some .loadCommitFailed)) :=
  ⟨by decide, by decide,
    aggregation_loops_on_notFound testEnv orphanState (by decide) (by decide) 2⟩

/-! ## Claims about block retrieval retries -/

/-- If every attempt in the window fails, the retry loop makes exactly
one `fetchBlock` call per remaining retry and falls through to the
panic. -/
lemma mustRetrieveAux_exhaust (oracle : Nat → RetrieveResult) :
    ∀ r a, (∀ i, i < a + r → a ≤ i → (fetchBlock (oracle i)).isSome = true) →
      mustRetrieveAux oracle a r = (a + r, false) := by
  intro r
  induction r with
  | zero =>
    intro a _
    simp [mustRetrieveAux]
  | succ k ih =>
    intro a hall
    have h0 : (fetchBlock (oracle a)).isSome = true :=
      hall a (by omega) (le_refl a)
    cases hf : fetchBlock (oracle a) with
    | none => rw [hf] at h0; exact absurd h0 (by simp)
    | some e =>
      have hr := ih (a + 1) (fun i h1 h2 => hall i (by omega) (by omega))
      rw [show a + 1 + k = a + (k + 1) from by omega] at hr
      simp only [mustRetrieveAux, hf, hr]

/-- If the first success happens at attempt `k` within the retry budget,
the loop stops right there with `k + 1` calls in total. -/
lemma mustRetrieveAux_first_success (oracle : Nat → RetrieveResult) :
    ∀ k r a, k < r →
      (∀ i, a ≤ i → i < a + k → (fetchBlock (oracle i)).isSome = true) →
      fetchBlock (oracle (a + k)) = none →
      mustRetrieveAux oracle a r = (a + k + 1, true) := by
  intro k
  induction k with
  | zero =>
    intro r a hr hall hsucc
    cases r with
    | zero => omega
    | succ rr =>
      rw [show a + 0 = a from rfl] at hsucc
      simp only [mustRetrieveAux, hsucc]
  | succ kk ih =>
    intro r a hr hall hsucc
    cases r with
    | zero => omega
    | succ rr =>
      have h0 : (fetchBlock (oracle a)).isSome = true :=
        hall a (le_refl a) (by omega)
      cases hf : fetchBlock (oracle a) with
      | none => rw [hf] at h0; exact absurd h0 (by simp)
      | some e =>
        have hrec := ih rr (a + 1) (by omega)
          (fun i h1 h2 => hall i (by omega) (by omega))
          (by rw [show a + 1 + kk = a + (kk + 1) from by omega]; exact hsucc)
        rw [show a + 1 + kk + 1 = a + (kk + 1) + 1 from by omega] at hrec
        simp only [mustRetrieveAux, hf, hrec]

/-- C4 counterexample: against an oracle that fails the first five
attempts and then succeeds, the source loop makes 6 calls and succeeds
— but under the claim's configured `max_retrieve_retries = 3` the loop
would stop, fatally, after 3 calls. The source hard-codes
`maxRetries := 10` and consults no configuration. -/
theorem mustRetrieve_ignores_configured_max :
    mustRetrieveBlock timeout5Oracle = (6, true) ∧
    mustRetrieveBlockConfigured 3 timeout5Oracle = (3, false) ∧
    mustRetrieveBlock timeout5Oracle ≠ mustRetrieveBlockConfigured 3 timeout5Oracle := by
  decide

/-- C4 (amended): for every height, retrieval calls `fetchBlock` until
the first success, retrying on Error/Timeout up to the hard-coded 10
attempts; the first success stops further calls (a success at attempt
`k` yields exactly `k + 1` calls), and exhausting all 10 retries is
fatal (the loop panics). -/
theorem mustRetrieve_retry_behaviour (oracle : Nat → RetrieveResult) :
    (∀ k, k < 10 →
      (∀ i, i < k → (fetchBlock (oracle i)).isSome = true) →
      fetchBlock (oracle k) = none →
      mustRetrieveBlock oracle = (k + 1, true)) ∧
    ((∀ i, i < 10 → (fetchBlock (oracle i)).isSome = true) →
      mustRetrieveBlock oracle = (10, false)) := by
  constructor
  · intro k hk hfail hsucc
    have h := mustRetrieveAux_first_success oracle k 10 0 hk
      (fun i h1 h2 => hfail i (by omega)) (by simpa using hsucc)
    simpa [mustRetrieveBlock] using h
  · intro hall
    have h := mustRetrieveAux_exhaust oracle 10 0 (fun i h1 h2 => hall i (by omega))
    simpa [mustRetrieveBlock] using h

/-- Witness for the amended C4: three timeouts followed by a success
yield exactly four `fetchBlock` calls. -/
theorem mustRetrieve_retry_behaviour_witness :
    mustRetrieveBlock timeout3Oracle = (4, true) :=
  (mustRetrieve_retry_behaviour timeout3Oracle).1 3 (by omega)
    (by decide) (by decide)

/-! ## Claims about publishBlock persistence ordering and genesis -/

/-- C5: in an aggregation tick, the block and its commit are saved and
the new state persisted strictly before `DA.SubmitBlock`; when the
submission fails, `publishBlock` returns an error but the saved block,
commit and updated state remain, and the store height has advanced so
the next tick targets the next height. -/
theorem publish_saves_before_submit {σ : Type} (env : PublishEnv σ)
    (m : MgrState σ) (lastCommit : Commit) (newState : σ)
    (hlc : lastCommitOf env m = some lastCommit)
    (hbh : (env.createBlock (m.store.height + 1) lastCommit m.lastState).header.height
      = m.store.height + 1)
    (ha : env.applyBlock m.lastState
      (env.createBlock (m.store.height + 1) lastCommit m.lastState) = some newState)
    (hs : env.submitBlock (env.createBlock (m.store.height + 1) lastCommit m.lastState)
      ≠ .Success) :
    (publishBlock env m).2 = some .submitFailed ∧
    (publishBlock env m).1.store.blocks (m.store.height + 1)
      = some (env.createBlock (m.store.height + 1) lastCommit m.lastState) ∧
    (publishBlock env m).1.store.commits (m.store.height + 1)
      = some
        { height := (env.createBlock (m.store.height + 1) lastCommit
            m.lastState).header.height,
          headerHash := env.headerHash (env.createBlock (m.store.height + 1)
            lastCommit m.lastState).header,
          signatures := [env.signHeader (env.createBlock (m.store.height + 1)
            lastCommit m.lastState).header] } ∧
    (publishBlock env m).1.store.stateRec = some newState ∧
    (publishBlock env m).1.lastState = newState ∧
    (publishBlock env m).1.store.height = m.store.height + 1 := by
  have hble : m.store.height ≤ m.store.height + 1 := Nat.le_succ _
  refine ⟨?_, ?_, ?_, ?_, ?_, ?_⟩ <;>
    simp [publishBlock, hlc, ha, hs, Store.SaveBlock, Store.UpdateState, hbh,
      Nat.max_eq_right hble]

/-- Witness for C5: the genesis tick of a fresh proposer whose DA layer
rejects the submission still leaves block, commit and state saved at
height 1. -/
theorem publish_saves_before_submit_witness :
    lastCommitOf failSubmitEnv genesisMgr = some (testCommit 0) ∧
    ((publishBlock failSubmitEnv genesisMgr).2 = some .submitFailed ∧
     (publishBlock failSubmitEnv genesisMgr).1.store.blocks
       (genesisMgr.store.height + 1)
       = some (failSubmitEnv.createBlock (genesisMgr.store.height + 1)
           (testCommit 0) genesisMgr.lastState) ∧
     (publishBlock failSubmitEnv genesisMgr).1.store.commits
       (genesisMgr.store.height + 1)
       = some
         { height := (failSubmitEnv.createBlock (genesisMgr.store.height + 1)
             (testCommit 0) genesisMgr.lastState).header.height,
           headerHash := failSubmitEnv.headerHash
             (failSubmitEnv.createBlock (genesisMgr.store.height + 1)
               (testCommit 0) genesisMgr.lastState).header,
           signatures := [failSubmitEnv.signHeader
             (failSubmitEnv.createBlock (genesisMgr.store.height + 1)
               (testCommit 0) genesisMgr.lastState).header] } ∧
     (publishBlock failSubmitEnv genesisMgr).1.store.stateRec = some 1 ∧
     (publishBlock failSubmitEnv genesisMgr).1.lastState = 1 ∧
     (publishBlock failSubmitEnv genesisMgr).1.store.height
       = genesisMgr.store.height + 1) :=
  ⟨by decide,
    publish_saves_before_submit failSubmitEnv genesisMgr (testCommit 0) 1
      (by decide) (by decide) (by decide) (by decide)⟩

/-- C6: on a genesis tick (`newHeight = initial_height`), the
synthesized last commit has height `newHeight - 1 = Store.Height()`, the
all-zero 32-byte header hash and no signatures; `CreateBlock` receives
exactly this commit and (for any executor that embeds the commit it is
given, as the spec's executor does) the saved genesis block carries it
as its last commit. -/
theorem publish_genesis_zero_commit {σ : Type} (env : PublishEnv σ)
    (m : MgrState σ) (newState : σ)
    (hgen : m.store.height + 1 = env.initialHeight)
    (hcb : ∀ (hgt : Nat) (c : Commit) (st : σ),
      (env.createBlock hgt c st).lastCommit = c)
    (hbh : ∀ (hgt : Nat) (c : Commit) (st : σ),
      (env.createBlock hgt c st).header.height = hgt)
    (ha : env.applyBlock m.lastState
      (env.createBlock (m.store.height + 1)
        { height := m.store.height, headerHash := zeroHash32, signatures := [] }
        m.lastState) = some newState) :
    lastCommitOf env m =
      some { height := m.store.height, headerHash := zeroHash32,
             signatures := [] } ∧
    zeroHash32.length = 32 ∧
    (publishBlock env m).1.store.blocks (m.store.height + 1) =
      some (env.createBlock (m.store.height + 1)
        { height := m.store.height, headerHash := zeroHash32, signatures := [] }
        m.lastState) ∧
    (env.createBlock (m.store.height + 1)
      { height := m.store.height, headerHash := zeroHash32, signatures := [] }
      m.lastState).lastCommit =
      { height := m.store.height, headerHash := zeroHash32,
        signatures := [] } := by
  have hlc : lastCommitOf env m =
      some { height := m.store.height, headerHash := zeroHash32,
             signatures := [] } := by
    unfold lastCommitOf
    rw [if_pos hgen]
  refine ⟨hlc, by decide, ?_, hcb _ _ _⟩
  simp [publishBlock, hlc, ha, Store.SaveBlock, Store.UpdateState, hbh]

/-- Witness for C6: the genesis tick of a fresh proposer with the
modelled executor. -/
theorem publish_genesis_zero_commit_witness :
    genesisMgr.store.height + 1 = testEnv.initialHeight ∧
    (lastCommitOf testEnv genesisMgr =
      some { height := genesisMgr.store.height, headerHash := zeroHash32,
             signatures := [] } ∧
     zeroHash32.length = 32 ∧
     (publishBlock testEnv genesisMgr).1.store.blocks
       (genesisMgr.store.height + 1) =
       some (testEnv.createBlock (genesisMgr.store.height + 1)
         { height := genesisMgr.store.height, headerHash := zeroHash32,
           signatures := [] }
         genesisMgr.lastState) ∧
     (testEnv.createBlock (genesisMgr.store.height + 1)
       { height := genesisMgr.store.height, headerHash := zeroHash32,
         signatures := [] }
       genesisMgr.lastState).lastCommit =
       { height := genesisMgr.store.height, headerHash := zeroHash32,
         signatures := [] }) :=
  ⟨by decide,
    publish_genesis_zero_commit testEnv genesisMgr 1 (by decide)
      (fun _ _ _ => rfl) (fun _ _ _ => rfl) (by decide)⟩

end Rollkit
